import Mathlib

/-!
Verification of the identity-matching and import logic of the
camel-data-analysis repository (raw_csv_to_sql.py and the refresh
migration scripts), as a shallow embedding in Lean 4.

Strings are modelled by Lean `String` (Python `str` over the ASCII
subset actually used by the scripts); machine floats produced by
`SequenceMatcher.ratio()` are modelled by exact rationals, so a
similarity threshold comparison `ratio >= t` becomes `t ≤ ratio` in ℚ.
Database tables are modelled as lists of row structures, in insertion
order; SQL `ORDER BY` clauses on `INSERT ... SELECT` statements do not
change table contents (SQL tables are row multisets), so the embedding
keeps source order.
-/

/-- Python `str.strip()`: drop leading and trailing whitespace (the
whitespace forms occurring in this repository's data are the ASCII
ones recognized by `Char.isWhitespace`). -/
def pyStrip (s : String) : String :=
  String.mk (((s.toList.dropWhile Char.isWhitespace).reverse.dropWhile
    Char.isWhitespace).reverse)

/-- Python `str.lower()` (ASCII data). -/
def pyLower (s : String) : String :=
  String.mk (s.toList.map Char.toLower)

/-- Python `needle in hay` on lists of characters: `needle` occurs
contiguously inside `hay`. -/
def listHasSub (hay needle : List Char) : Bool :=
  if needle.isPrefixOf hay then true
  else
    match hay with
    | [] => false
    | _ :: t => listHasSub t needle

/-- Python substring test `a in b` for strings. -/
def pyIn (a b : String) : Bool :=
  listHasSub b.toList a.toList

/-- Occurrences of a character in a list, as an ascending list of
indices: the `b2j` table of difflib's SequenceMatcher. -/
def occIndices (b : List Char) (c : Char) : List Nat :=
  (b.enum.filter (fun p => p.2 == c)).map (fun p => p.1)

/-- Lookup in the `j2len` association table of SequenceMatcher's
find_longest_match, defaulting to 0 (Python `j2len.get(j-1, 0)`). -/
def lookupJ2 (m : List (Nat × Nat)) (k : Nat) : Nat :=
  match m.find? (fun p => p.1 == k) with
  | some p => p.2
  | none => 0

/-- One iteration of the inner `for j in b2j[a[i]]` loop of
find_longest_match: extends the diagonal run ending at `(i, j)` and
updates the best block when strictly longer.  `j = 0` corresponds to
Python's `j2len.get(-1, 0) = 0`. -/
def flmProcessJ (i : Nat) (j2lenOld : List (Nat × Nat))
    (st : List (Nat × Nat) × Nat × Nat × Nat) (j : Nat) :
    List (Nat × Nat) × Nat × Nat × Nat :=
  let newj2len := st.1
  let besti := st.2.1
  let bestj := st.2.2.1
  let bestsize := st.2.2.2
  let k := (if j = 0 then 0 else lookupJ2 j2lenOld (j - 1)) + 1
  let newj2len := (j, k) :: newj2len
  if bestsize < k then (newj2len, i + 1 - k, j + 1 - k, k)
  else (newj2len, besti, bestj, bestsize)

/-- One iteration of the outer `for i in range(alo, ahi)` loop of
find_longest_match.  The `continue` on `j < blo` and the `break` on
`j >= bhi` are a filter and a takeWhile, since the index list is
ascending. -/
def flmProcessI (a b : List Char) (blo bhi : Nat)
    (st : List (Nat × Nat) × Nat × Nat × Nat) (i : Nat) :
    List (Nat × Nat) × Nat × Nat × Nat :=
  let j2len := st.1
  let js := ((occIndices b (a.getD i ' ')).filter
      (fun j => decide (blo ≤ j))).takeWhile (fun j => decide (j < bhi))
  let res := js.foldl (flmProcessJ i j2len) ([], st.2)
  res

/-- The main dynamic-programming loop of find_longest_match, returning
`(besti, bestj, bestsize)`. -/
def flmMainLoop (a b : List Char) (alo ahi blo bhi : Nat) : Nat × Nat × Nat :=
  let st := (List.range' alo (ahi - alo)).foldl (flmProcessI a b blo bhi)
    ([], alo, blo, 0)
  st.2

/-- The left extension loop of find_longest_match (with an empty junk
set: the scripts only compare short name strings, far below difflib's
autojunk threshold of 200 characters, so `bjunk` is empty).  The loop
decrements `besti` while extending, so `besti` itself is sufficient
fuel. -/
def flmExtendLoAux (a b : List Char) (alo blo : Nat) :
    Nat → Nat → Nat → Nat → Nat × Nat × Nat
  | 0, besti, bestj, bestsize => (besti, bestj, bestsize)
  | fuel + 1, besti, bestj, bestsize =>
    if alo < besti ∧ blo < bestj ∧
        a.getD (besti - 1) ' ' = b.getD (bestj - 1) ' ' then
      flmExtendLoAux a b alo blo fuel (besti - 1) (bestj - 1) (bestsize + 1)
    else (besti, bestj, bestsize)

/-- The right extension loop of find_longest_match (empty junk set).
The loop increments `besti + bestsize` toward `ahi`, so `ahi` is
sufficient fuel. -/
def flmExtendHiAux (a b : List Char) (ahi bhi besti bestj : Nat) :
    Nat → Nat → Nat
  | 0, bestsize => bestsize
  | fuel + 1, bestsize =>
    if besti + bestsize < ahi ∧ bestj + bestsize < bhi ∧
        a.getD (besti + bestsize) ' ' = b.getD (bestj + bestsize) ' ' then
      flmExtendHiAux a b ahi bhi besti bestj fuel (bestsize + 1)
    else bestsize

/-- difflib `SequenceMatcher.find_longest_match` on the index range
`[alo, ahi) × [blo, bhi)`. -/
def find_longest_match (a b : List Char) (alo ahi blo bhi : Nat) :
    Nat × Nat × Nat :=
  let m := flmMainLoop a b alo ahi blo bhi
  let e := flmExtendLoAux a b alo blo m.1 m.1 m.2.1 m.2.2
  let s := flmExtendHiAux a b ahi bhi e.1 e.2.1 ahi e.2.2
  (e.1, e.2.1, s)

/-- Total size of the matching blocks found by the recursive
`get_matching_blocks` subdivision (only the sum of block sizes is
needed for `ratio()`).  The fuel argument bounds the recursion depth;
each recursive call is on a strictly shorter `a`-range, so
`a.length + b.length + 1` fuel is always sufficient. -/
def matchTotalAux (a b : List Char) :
    Nat → Nat → Nat → Nat → Nat → Nat
  | 0, _, _, _, _ => 0
  | fuel + 1, alo, ahi, blo, bhi =>
    let r := find_longest_match a b alo ahi blo bhi
    let i := r.1
    let j := r.2.1
    let k := r.2.2
    if k = 0 then 0
    else
      (if alo < i ∧ blo < j then matchTotalAux a b fuel alo i blo j else 0)
      + k
      + (if i + k < ahi ∧ j + k < bhi then
          matchTotalAux a b fuel (i + k) ahi (j + k) bhi else 0)

/-- Sum of the sizes of all matching blocks of SequenceMatcher. -/
def sm_matches (a b : List Char) : Nat :=
  matchTotalAux a b (a.length + b.length + 1) 0 a.length 0 b.length

/-- raw_csv_to_sql.py `fuzzy_ratio`:
`SequenceMatcher(None, str_a, str_b).ratio()`, i.e.
`2 * matches / (len(a) + len(b))`, and 1.0 when both strings are
empty (difflib `_calculate_ratio`). -/
def fuzzy_ratio (str_a str_b : String) : ℚ :=
  if str_a.length + str_b.length = 0 then 1
  else mkRat (2 * (sm_matches str_a.toList str_b.toList))
    (str_a.length + str_b.length)

/-- raw_csv_to_sql.py `is_initial`: after strip().lower(), a single
letter or a letter followed by a period. -/
def is_initial (name : String) : Bool :=
  match (pyLower (pyStrip name)).toList with
  | [c] => c.isAlpha
  | [c, d] => c.isAlpha && (d == '.')
  | _ => false

/-- Verdict values returned by `compare_names`. -/
inductive Verdict where
  | auto_accept
  | manual_review
  | reject_now
deriving DecidableEq, Repr

/-- Python `sheet.startswith(ta[0].lower())` for a single-character
pattern: used by the initial-handling branches of `compare_names`
(the raw, unstripped first character of the initial side is
lowercased; the sheet side is compared case-sensitively). -/
def starts_with_lower_initial (sheet ta : String) : Bool :=
  match sheet.toList, ta.toList with
  | c :: _, t :: _ => c == t.toLower
  | _, _ => false

/-- raw_csv_to_sql.py `compare_names` (lines 91-148).  The pd.notna
coercions on entry map missing values to the empty string; callers in
this development always pass strings, for which the coercion is the
identity, so the arguments are plain strings here. -/
def compare_names (fn_ta ln_ta fn_sheet ln_sheet : String)
    (fuzzy_threshold : ℚ) : Verdict :=
  if fn_ta = fn_sheet ∧ ln_ta = ln_sheet then .auto_accept
  else if (pyIn fn_ta fn_sheet = true ∧ ln_sheet = ln_ta) ∨
      (pyIn fn_sheet fn_ta = true ∧ ln_ta = ln_sheet) then .auto_accept
  else if (fn_ta = fn_sheet ∧ pyIn ln_ta ln_sheet = true) ∨
      (fn_sheet = fn_ta ∧ pyIn ln_sheet ln_ta = true) then .auto_accept
  else if is_initial fn_ta = true ∨ is_initial ln_ta = true then
    if is_initial fn_ta = true ∧
        starts_with_lower_initial fn_sheet fn_ta = false then .reject_now
    else if is_initial ln_ta = true ∧
        starts_with_lower_initial ln_sheet ln_ta = false then .reject_now
    else if is_initial fn_ta = true ∧ is_initial ln_ta = false then
      if fuzzy_threshold ≤ fuzzy_ratio ln_ta ln_sheet then .manual_review
      else .reject_now
    else if is_initial ln_ta = true ∧ is_initial fn_ta = false then
      if fuzzy_threshold ≤ fuzzy_ratio fn_ta fn_sheet then .manual_review
      else .reject_now
    else .manual_review
  else if fn_ta = fn_sheet ∧ fuzzy_threshold ≤ fuzzy_ratio ln_ta ln_sheet then
    .auto_accept
  else if ln_ta = ln_sheet ∧ fuzzy_threshold ≤ fuzzy_ratio fn_ta fn_sheet then
    .auto_accept
  else if fuzzy_threshold ≤ fuzzy_ratio fn_ta fn_sheet ∧
      fuzzy_threshold ≤ fuzzy_ratio ln_ta ln_sheet then .manual_review
  else .reject_now

example : fuzzy_ratio "smith" "smyth" = mkRat 4 5 := by decide
example : fuzzy_ratio "john" "John" = mkRat 3 4 := by decide
example : fuzzy_ratio "jonathan" "jonathen" = mkRat 7 8 := by decide

/-- C1 counterexample: with first names exactly equal ("john"/"john")
and last names "smith"/"smyth" that are neither equal nor substrings
of one another, neither input name an initial, and both similarity
ratios at least 0.8, `compare_names` returns `auto_accept` (by the
exact-first + fuzzy-last rule of lines 138-140), not the
`manual_review` verdict the claim requires. -/
theorem claim_C1_counterexample :
    is_initial "john" = false ∧ is_initial "smith" = false ∧
    ¬ (("john" : String) = "john" ∧ ("smith" : String) = "smyth") ∧
    ¬ ((pyIn "john" "john" = true ∧ ("smyth" : String) = "smith") ∨
       (pyIn "john" "john" = true ∧ ("smith" : String) = "smyth")) ∧
    ¬ ((("john" : String) = "john" ∧ pyIn "smith" "smyth" = true) ∨
       (("john" : String) = "john" ∧ pyIn "smyth" "smith" = true)) ∧
    mkRat 4 5 ≤ fuzzy_ratio "john" "john" ∧
    mkRat 4 5 ≤ fuzzy_ratio "smith" "smyth" ∧
    compare_names "john" "smith" "john" "smyth" (mkRat 4 5) =
      Verdict.auto_accept ∧
    Verdict.auto_accept ≠ Verdict.manual_review := by decide

/-- C1 amended: for two name pairs in which neither input-side name is
an initial, the pairs are neither equal nor related by the substring
rules, and additionally the first names are not exactly equal and the
last names are not exactly equal, if both similarity ratios reach the
threshold then `compare_names` returns the manual-review verdict. -/
theorem claim_C1_amended (fn_ta ln_ta fn_sheet ln_sheet : String) (θ : ℚ)
    (hfi : is_initial fn_ta = false) (hli : is_initial ln_ta = false)
    (hpair : ¬ (fn_ta = fn_sheet ∧ ln_ta = ln_sheet))
    (hsub1 : ¬ ((pyIn fn_ta fn_sheet = true ∧ ln_sheet = ln_ta) ∨
      (pyIn fn_sheet fn_ta = true ∧ ln_ta = ln_sheet)))
    (hsub2 : ¬ ((fn_ta = fn_sheet ∧ pyIn ln_ta ln_sheet = true) ∨
      (fn_sheet = fn_ta ∧ pyIn ln_sheet ln_ta = true)))
    (hfe : fn_ta ≠ fn_sheet) (hle : ln_ta ≠ ln_sheet)
    (hrf : θ ≤ fuzzy_ratio fn_ta fn_sheet)
    (hrl : θ ≤ fuzzy_ratio ln_ta ln_sheet) :
    compare_names fn_ta ln_ta fn_sheet ln_sheet θ = Verdict.manual_review := by
  unfold compare_names
  rw [if_neg hpair, if_neg hsub1, if_neg hsub2,
    if_neg (by simp [hfi, hli] :
      ¬ (is_initial fn_ta = true ∨ is_initial ln_ta = true)),
    if_neg (fun h => hfe h.1), if_neg (fun h => hle h.1),
    if_pos ⟨hrf, hrl⟩]

/-- C1 amended, witness at a concrete input: "jonathan smithson"
against "jonathen smithsen" with threshold 4/5 (both ratios are 7/8). -/
theorem claim_C1_amended_witness :
    (is_initial "jonathan" = false ∧ is_initial "smithson" = false ∧
     ("jonathan" : String) ≠ "jonathen" ∧
     ("smithson" : String) ≠ "smithsen" ∧
     mkRat 4 5 ≤ fuzzy_ratio "jonathan" "jonathen" ∧
     mkRat 4 5 ≤ fuzzy_ratio "smithson" "smithsen") ∧
    compare_names "jonathan" "smithson" "jonathen" "smithsen" (mkRat 4 5) =
      Verdict.manual_review :=
  ⟨⟨by decide, by decide, by decide, by decide, by decide, by decide⟩,
    claim_C1_amended "jonathan" "smithson" "jonathen" "smithsen" (mkRat 4 5)
      (by decide) (by decide) (by decide) (by decide) (by decide)
      (by decide) (by decide) (by decide) (by decide)⟩

/-- C2 counterexample: with input first name "j" (an initial), input
last name "smith", and candidate "john smith", the candidate first
name starts with the letter and the non-initial side matches with
ratio 1 ≥ 0.8, so the claim requires the manual-review verdict; but
`compare_names` returns `auto_accept`, because the substring rule of
line 100 ("j" is a substring of "john" and the last names are equal)
fires before the initial handling is reached. -/
theorem claim_C2_counterexample :
    is_initial "j" = true ∧ is_initial "smith" = false ∧
    starts_with_lower_initial "john" "j" = true ∧
    mkRat 4 5 ≤ fuzzy_ratio "smith" "smith" ∧
    compare_names "j" "smith" "john" "smith" (mkRat 4 5) =
      Verdict.auto_accept ∧
    Verdict.auto_accept ≠ Verdict.manual_review ∧
    Verdict.auto_accept ≠ Verdict.reject_now := by decide

/-- C2 amended: for every name pair in which exactly one input-side
name is an initial, provided the pair is not already auto-accepted by
the equality or substring rules, `compare_names` rejects the candidate
when the candidate's corresponding name does not start with the
(lowercased) initial letter; when it does start with it, the candidate
is rejected unless the similarity ratio of the non-initial name
against the candidate's name reaches the threshold, in which case it
is queued for manual review. -/
theorem claim_C2_amended (fn_ta ln_ta fn_sheet ln_sheet : String) (θ : ℚ)
    (hpair : ¬ (fn_ta = fn_sheet ∧ ln_ta = ln_sheet))
    (hsub1 : ¬ ((pyIn fn_ta fn_sheet = true ∧ ln_sheet = ln_ta) ∨
      (pyIn fn_sheet fn_ta = true ∧ ln_ta = ln_sheet)))
    (hsub2 : ¬ ((fn_ta = fn_sheet ∧ pyIn ln_ta ln_sheet = true) ∨
      (fn_sheet = fn_ta ∧ pyIn ln_sheet ln_ta = true))) :
    (is_initial fn_ta = true → is_initial ln_ta = false →
      compare_names fn_ta ln_ta fn_sheet ln_sheet θ =
        (if starts_with_lower_initial fn_sheet fn_ta = true then
          (if θ ≤ fuzzy_ratio ln_ta ln_sheet then Verdict.manual_review
           else Verdict.reject_now)
         else Verdict.reject_now)) ∧
    (is_initial ln_ta = true → is_initial fn_ta = false →
      compare_names fn_ta ln_ta fn_sheet ln_sheet θ =
        (if starts_with_lower_initial ln_sheet ln_ta = true then
          (if θ ≤ fuzzy_ratio fn_ta fn_sheet then Verdict.manual_review
           else Verdict.reject_now)
         else Verdict.reject_now)) := by
  constructor
  · intro hf hl
    unfold compare_names
    rw [if_neg hpair, if_neg hsub1, if_neg hsub2, if_pos (Or.inl hf)]
    by_cases hs : starts_with_lower_initial fn_sheet fn_ta = true
    · rw [if_neg (by simp [hs]), if_neg (by simp [hl]), if_pos ⟨hf, hl⟩,
        if_pos hs]
    · have hs' : starts_with_lower_initial fn_sheet fn_ta = false := by
        simpa using hs
      rw [if_pos ⟨hf, hs'⟩, if_neg hs]
  · intro hl hf
    unfold compare_names
    rw [if_neg hpair, if_neg hsub1, if_neg hsub2, if_pos (Or.inr hl)]
    by_cases hs : starts_with_lower_initial ln_sheet ln_ta = true
    · rw [if_neg (by simp [hf]), if_neg (by simp [hs]),
        if_neg (by simp [hf]), if_pos ⟨hl, hf⟩, if_pos hs]
    · have hs' : starts_with_lower_initial ln_sheet ln_ta = false := by
        simpa using hs
      rw [if_neg (by simp [hf]), if_pos ⟨hl, hs'⟩, if_neg hs]

/-- C2 amended, witness at a concrete input: "j. smith" against
"john smith" (where the substring rules do not fire because of the
period) is queued for manual review. -/
theorem claim_C2_amended_witness :
    (is_initial "j." = true ∧ is_initial "smith" = false ∧
     ¬ (("j." : String) = "john" ∧ ("smith" : String) = "smith")) ∧
    compare_names "j." "smith" "john" "smith" (mkRat 4 5) =
      Verdict.manual_review := by
  refine ⟨⟨by decide, by decide, by decide⟩, ?_⟩
  have h := (claim_C2_amended "j." "smith" "john" "smith" (mkRat 4 5)
    (by decide) (by decide) (by decide)).1 (by decide) (by decide)
  rw [h]
  decide

/-- C9: `compare_names` is not invariant under letter case: the names
"john smith" and "John Smith" are identical up to lowercasing, yet at
threshold 4/5 `compare_names` returns the reject verdict rather than
auto-accept (the equality, substring and similarity checks are all
case-sensitive: the ratio of "john" against "John" is only 3/4). -/
theorem claim_C9_case_sensitivity :
    pyLower "john" = pyLower "John" ∧ pyLower "smith" = pyLower "Smith" ∧
    fuzzy_ratio "john" "John" = mkRat 3 4 ∧
    compare_names "john" "smith" "John" "Smith" (mkRat 4 5) =
      Verdict.reject_now ∧
    Verdict.reject_now ≠ Verdict.auto_accept := by decide

/-- `List.isPrefixOf` agrees with an existential append decomposition. -/
theorem isPrefixOf_iff_append : ∀ (n h : List Char),
    n.isPrefixOf h = true ↔ ∃ q, h = n ++ q
  | [], h => by simp [List.isPrefixOf]
  | a :: as, [] => by simp [List.isPrefixOf]
  | a :: as, b :: bs => by
    show (a == b && as.isPrefixOf bs) = true ↔ _
    rw [Bool.and_eq_true, beq_iff_eq, isPrefixOf_iff_append as bs]
    constructor
    · rintro ⟨rfl, q, rfl⟩
      exact ⟨q, rfl⟩
    · rintro ⟨q, hq⟩
      injection hq with h1 h2
      exact ⟨h1.symm, q, h2⟩

/-- `listHasSub` agrees with an existential double-append
decomposition. -/
theorem listHasSub_iff : ∀ (h n : List Char),
    listHasSub h n = true ↔ ∃ p q, h = p ++ n ++ q
  | [], n => by
    cases n with
    | nil => simp [listHasSub, List.isPrefixOf]
    | cons c cs =>
      simp only [listHasSub, List.isPrefixOf]
      constructor
      · intro h
        exact absurd h (by simp)
      · rintro ⟨p, q, hq⟩
        exact absurd hq.symm (by simp)
  | b :: t, n => by
    by_cases hp : n.isPrefixOf (b :: t) = true
    · simp only [listHasSub, if_pos hp]
      obtain ⟨q, hq⟩ := (isPrefixOf_iff_append n (b :: t)).1 hp
      constructor
      · intro _
        exact ⟨[], q, by simpa using hq⟩
      · intro _
        trivial
    · simp only [listHasSub, if_neg hp]
      rw [listHasSub_iff t n]
      constructor
      · rintro ⟨p, q, rfl⟩
        exact ⟨b :: p, q, rfl⟩
      · rintro ⟨p, q, hq⟩
        cases p with
        | nil =>
          exact absurd ((isPrefixOf_iff_append n (b :: t)).2
            ⟨q, by simpa using hq⟩) hp
        | cons x xs =>
          injection hq with h1 h2
          exact ⟨xs, q, h2⟩

/-- Containment of character lists is transitive. -/
theorem listHasSub_trans {d e s : List Char} (h1 : listHasSub d e = true)
    (h2 : listHasSub s d = true) : listHasSub s e = true := by
  obtain ⟨p, q, rfl⟩ := (listHasSub_iff d e).1 h1
  obtain ⟨u, v, rfl⟩ := (listHasSub_iff s _).1 h2
  exact (listHasSub_iff _ _).2 ⟨u ++ p, q ++ v, by simp⟩

/-- Python substring containment is transitive: if `a in b` and
`b in c` then `a in c`. -/
theorem pyIn_trans (a b c : String) (h1 : pyIn a b = true)
    (h2 : pyIn b c = true) : pyIn a c = true :=
  listHasSub_trans h1 h2

/-- Python truthiness test `pd.notna(x) and x.strip()` used as a guard
in `normalize_school_with_email`: the value is present and non-blank. -/
def notBlank (x : Option String) : Bool :=
  match x with
  | some s => decide (pyStrip s ≠ "")
  | none => false

/-- `str(x).strip().lower()` applied to an optional field (the guard
ensures the field is present wherever this is used). -/
def pyCleanLower (x : Option String) : String :=
  pyLower (pyStrip (x.getD ""))

/-- The school-email block of `normalize_school_with_email`
(raw_csv_to_sql.py lines 417-432). -/
def schoolEmailBranch (s : String) : String :=
  if pyIn "@harvard.edu" s = true ∨ pyIn "@college.harvard.edu" s = true then
    "harvard"
  else if pyIn "@hbs.edu" s = true ∨ pyIn "@hms.harvard.edu" s = true ∨
      pyIn "@hsph.harvard.edu" s = true ∨ pyIn "@fas.harvard.edu" s = true ∨
      pyIn "@hillel.harvard.edu" s = true then "other"
  else if pyIn "@mit.edu" s = true then "mit"
  else "other"

/-- The general-email block of `normalize_school_with_email`
(lines 434-449); this block can fall through without a result. -/
def generalEmailBranch (g : String) : Option String :=
  if pyIn "@harvard.edu" g = true ∨ pyIn "@college.harvard.edu" g = true then
    some "harvard"
  else if pyIn "@hbs.edu" g = true ∨ pyIn "@hms.harvard.edu" g = true ∨
      pyIn "@hsph.harvard.edu" g = true ∨ pyIn "@fas.harvard.edu" g = true then
    some "other"
  else if pyIn "@mit.edu" g = true then some "mit"
  else if pyIn ".edu" g = true then some "other"
  else none

/-- The free-text school-response block of
`normalize_school_with_email` (lines 451-458). -/
def schoolResponseBranch (t : String) : String :=
  if pyIn "harvard" t = true ∧ pyIn "business" t = false then "harvard"
  else if pyIn "mit" t = true then "mit"
  else "other"

/-- raw_csv_to_sql.py `normalize_school_with_email` (lines 416-460). -/
def normalize_school_with_email
    (school_response general_email school_email : Option String) :
    Option String :=
  if notBlank school_email = true then
    some (schoolEmailBranch (pyCleanLower school_email))
  else
    match (if notBlank general_email = true then
        generalEmailBranch (pyCleanLower general_email) else none) with
    | some r => some r
    | none =>
      if notBlank school_response = true then
        some (schoolResponseBranch (pyCleanLower school_response))
      else none

example : normalize_school_with_email none none (some "a@mit.edu") =
    some "mit" := by decide
example : normalize_school_with_email none none (some "a@hbs.edu") =
    some "other" := by decide
example : normalize_school_with_email none (some "a@college.harvard.edu")
    none = some "harvard" := by decide
example : normalize_school_with_email (some "MIT") none none =
    some "mit" := by decide

/-- C8 counterexample: with a blank school email and school response
but a non-blank general email "john@gmail.com" (which contains no
recognized domain and no ".edu"), `normalize_school_with_email`
returns None even though not all three inputs are blank, contradicting
the claim's "returns None only when school email, general email, and
school response are all blank". -/
theorem claim_C8_counterexample :
    normalize_school_with_email none (some "john@gmail.com") none = none ∧
    notBlank (some "john@gmail.com") = true := by decide

/-- Helper for C8: every recognized general-email domain contains
".edu", so the general-email block yields a school exactly when the
cleaned general email contains ".edu". -/
theorem generalEmailBranch_none_iff (g : String) :
    generalEmailBranch g = none ↔ pyIn ".edu" g = false := by
  unfold generalEmailBranch
  by_cases h1 : pyIn "@harvard.edu" g = true ∨
      pyIn "@college.harvard.edu" g = true
  · have hedu : pyIn ".edu" g = true := by
      rcases h1 with h | h
      · exact pyIn_trans _ _ _ (by decide) h
      · exact pyIn_trans _ _ _ (by decide) h
    simp [if_pos h1, hedu]
  · rw [if_neg h1]
    by_cases h2 : pyIn "@hbs.edu" g = true ∨ pyIn "@hms.harvard.edu" g = true ∨
        pyIn "@hsph.harvard.edu" g = true ∨ pyIn "@fas.harvard.edu" g = true
    · have hedu : pyIn ".edu" g = true := by
        rcases h2 with h | h | h | h
        · exact pyIn_trans _ _ _ (by decide) h
        · exact pyIn_trans _ _ _ (by decide) h
        · exact pyIn_trans _ _ _ (by decide) h
        · exact pyIn_trans _ _ _ (by decide) h
      simp [if_pos h2, hedu]
    · rw [if_neg h2]
      by_cases h3 : pyIn "@mit.edu" g = true
      · have hedu : pyIn ".edu" g = true := pyIn_trans _ _ _ (by decide) h3
        simp [if_pos h3, hedu]
      · rw [if_neg h3]
        by_cases h4 : pyIn ".edu" g = true
        · simp [if_pos h4, h4]
        · simp [if_neg h4]
          simpa using h4

/-- C8 amended: when the school email is non-blank the school is
determined from it alone ("harvard" when it contains "@harvard.edu" or
"@college.harvard.edu", "mit" when it contains "@mit.edu" and none of
the Harvard-affiliated domains, "other" otherwise); and the result is
None exactly when the school email is blank, the school response is
blank, and the general email is blank or does not contain ".edu". -/
theorem claim_C8_amended (sr ge se : Option String) :
    (notBlank se = true →
      normalize_school_with_email sr ge se =
        normalize_school_with_email none none se ∧
      normalize_school_with_email sr ge se =
        some (if pyIn "@harvard.edu" (pyCleanLower se) = true ∨
            pyIn "@college.harvard.edu" (pyCleanLower se) = true then
            "harvard"
          else if pyIn "@mit.edu" (pyCleanLower se) = true ∧
            ¬ (pyIn "@harvard.edu" (pyCleanLower se) = true ∨
               pyIn "@college.harvard.edu" (pyCleanLower se) = true ∨
               pyIn "@hbs.edu" (pyCleanLower se) = true ∨
               pyIn "@hms.harvard.edu" (pyCleanLower se) = true ∨
               pyIn "@hsph.harvard.edu" (pyCleanLower se) = true ∨
               pyIn "@fas.harvard.edu" (pyCleanLower se) = true ∨
               pyIn "@hillel.harvard.edu" (pyCleanLower se) = true) then
            "mit"
          else "other")) ∧
    (normalize_school_with_email sr ge se = none ↔
      notBlank se = false ∧ notBlank sr = false ∧
      (notBlank ge = false ∨ pyIn ".edu" (pyCleanLower ge) = false)) := by
  constructor
  · intro h
    constructor
    · unfold normalize_school_with_email
      rw [if_pos h, if_pos h]
    · unfold normalize_school_with_email
      rw [if_pos h]
      unfold schoolEmailBranch
      congr 1
      by_cases h1 : pyIn "@harvard.edu" (pyCleanLower se) = true ∨
          pyIn "@college.harvard.edu" (pyCleanLower se) = true
      · rw [if_pos h1, if_pos h1]
      · rw [if_neg h1, if_neg h1]
        by_cases h2 : pyIn "@hbs.edu" (pyCleanLower se) = true ∨
            pyIn "@hms.harvard.edu" (pyCleanLower se) = true ∨
            pyIn "@hsph.harvard.edu" (pyCleanLower se) = true ∨
            pyIn "@fas.harvard.edu" (pyCleanLower se) = true ∨
            pyIn "@hillel.harvard.edu" (pyCleanLower se) = true
        · rw [if_pos h2, if_neg (fun hc => hc.2 (by tauto))]
        · rw [if_neg h2]
          by_cases h3 : pyIn "@mit.edu" (pyCleanLower se) = true
          · rw [if_pos h3, if_pos ⟨h3, by tauto⟩]
          · rw [if_neg h3, if_neg (fun hc => h3 hc.1)]
  · unfold normalize_school_with_email
    by_cases hse : notBlank se = true
    · rw [if_pos hse]
      simp [hse]
    · have hse' : notBlank se = false := by simpa using hse
      rw [if_neg hse]
      by_cases hge : notBlank ge = true
      · rw [if_pos hge]
        by_cases hg : generalEmailBranch (pyCleanLower ge) = none
        · rw [hg]
          have hedu := (generalEmailBranch_none_iff (pyCleanLower ge)).1 hg
          by_cases hsr : notBlank sr = true
          · simp [hsr]
          · have hsr' : notBlank sr = false := by simpa using hsr
            simp [hsr', hse', hedu]
        · obtain ⟨r, hr⟩ := Option.ne_none_iff_exists'.1 hg
          rw [hr]
          have hedu : pyIn ".edu" (pyCleanLower ge) = true := by
            by_contra hcon
            exact hg ((generalEmailBranch_none_iff (pyCleanLower ge)).2
              (by simpa using hcon))
          simp [hge, hedu]
      · have hge' : notBlank ge = false := by simpa using hge
        rw [if_neg hge]
        by_cases hsr : notBlank sr = true
        · simp [hsr]
        · have hsr' : notBlank sr = false := by simpa using hsr
          simp [hsr', hse', hge']

/-- C8 amended, witness at a concrete input: a non-blank school email
"x@mit.edu" yields "mit" regardless of the other fields. -/
theorem claim_C8_amended_witness :
    notBlank (some "x@mit.edu") = true ∧
    normalize_school_with_email (some "Harvard") (some "y@gmail.com")
      (some "x@mit.edu") = some "mit" := by
  refine ⟨by decide, ?_⟩
  have h := (claim_C8_amended (some "Harvard") (some "y@gmail.com")
    (some "x@mit.edu")).1 (by decide)
  rw [h.2]
  decide

/-- The string body of `clean_phone_number`
(refresh/02_migrate_contacts_to_people.py lines 32-43, identically in
refresh/03_migrate_mailinglist_to_people.py lines 33-44): if the
string contains a '.', keep only the part before the first '.'
(Python `split('.')[0]`), then strip surrounding whitespace. -/
def cleanPhoneStr (s : String) : String :=
  pyStrip (if pyIn "." s = true then
    String.mk (s.toList.takeWhile (fun c => decide (c ≠ '.')))
  else s)

/-- `clean_phone_number`: None maps to None, strings are cleaned by
`cleanPhoneStr`. -/
def clean_phone_number (phone : Option String) : Option String :=
  phone.map cleanPhoneStr

example : clean_phone_number (some "1234567890.0") = some "1234567890" := by
  decide
example : clean_phone_number (some "617.555.0123") = some "617" := by decide
example : clean_phone_number (some " 6175550123 ") = some "6175550123" := by
  decide

/-- C10 counterexample: for the input " 617.555" (with leading
whitespace) the prefix before the first '.' is " 617", but
`clean_phone_number` returns "617": the prefix is additionally
stripped, so the function does not return "only the prefix before the
first '.'" as claimed. -/
theorem claim_C10_counterexample :
    clean_phone_number (some " 617.555") = some "617" ∧
    String.mk (" 617.555".toList.takeWhile (fun c => decide (c ≠ '.'))) =
      " 617" ∧
    (" 617" : String) ≠ "617" := by decide

/-- C10 amended: for every phone string containing a '.',
`clean_phone_number` returns the prefix before the first '.' stripped
of surrounding whitespace; strings without a '.' are returned stripped
of surrounding whitespace; None is returned for None. -/
theorem claim_C10_amended (p : String) :
    (pyIn "." p = true →
      clean_phone_number (some p) =
        some (pyStrip (String.mk
          (p.toList.takeWhile (fun c => decide (c ≠ '.')))))) ∧
    (pyIn "." p = false →
      clean_phone_number (some p) = some (pyStrip p)) ∧
    clean_phone_number none = none := by
  refine ⟨fun h => ?_, fun h => ?_, rfl⟩
  · simp [clean_phone_number, cleanPhoneStr, h]
  · simp [clean_phone_number, cleanPhoneStr, h]

/-- C10 amended, witness at a concrete input: the float artifact
"1234567890.0" is cleaned to "1234567890". -/
theorem claim_C10_amended_witness :
    pyIn "." "1234567890.0" = true ∧
    clean_phone_number (some "1234567890.0") = some "1234567890" := by
  refine ⟨by decide, ?_⟩
  have h := (claim_C10_amended "1234567890.0").1 (by decide)
  rw [h]
  decide

/-- A row of the People table (columns used by the import script). -/
structure PersonRow where
  id : Nat
  first_name : Option String
  last_name : Option String
  gender : Option String
  class_year : Option Int
  is_jewish : Option Bool
  school : Option String
  preferred_name : Option String
  referral_count : Int
deriving DecidableEq, Repr

/-- A row of the Contacts table. -/
structure ContactRow where
  person_id : Nat
  contact_type : String
  contact_value : String
  is_verified : Bool
deriving DecidableEq, Repr

/-- A row of the Attendance table. -/
structure AttendanceRow where
  person_id : Nat
  event_id : Nat
  rsvp : Bool
  approved : Bool
  checked_in : Bool
  rsvp_datetime : Option String
  is_first_event : Bool
  invite_token_id : Option Nat
deriving DecidableEq, Repr

/-- A row of the derived MailingList table. -/
structure MailingRow where
  first_name : Option String
  last_name : Option String
  gender : Option String
  class_year : Option Int
  is_jewish : Option String
  school : Option String
  event_attendance_count : Nat
  event_rsvp_count : Nat
  school_email : Option String
  personal_email : Option String
  preferred_email : Option String
  phone_number : Option String
deriving DecidableEq, Repr

/-- A row of the derived AllMailing table. -/
structure AllMailingRow where
  first_name : Option String
  last_name : Option String
  school : Option String
  contact_value : String
  event_count : Nat
deriving DecidableEq, Repr

/-- The database state touched by raw_csv_to_sql.py.  Tables are lists
of rows in insertion order; `nextPersonId` models the People id
sequence behind `INSERT ... RETURNING id`. -/
structure DB where
  people : List PersonRow
  contacts : List ContactRow
  attendance : List AttendanceRow
  mailingList : List MailingRow
  allMailing : List AllMailingRow
  nextPersonId : Nat
deriving DecidableEq, Repr

/-- Python `max(x, y, key=len)`: the first argument wins ties. -/
def pyMaxByLen (x y : String) : String :=
  if x.length < y.length then y else x

/-- raw_csv_to_sql.py `update_names_if_substring` (lines 150-173):
replace the stored names by the longer version when one is a
case-insensitive substring of the other.  A missing or empty stored
first name is treated as "" (and "" is a substring of everything); the
last names are only compared when both are present. -/
def update_names_if_substring (db : DB) (person_id : Nat)
    (sheet_first sheet_last input_first input_last : Option String) : DB :=
  let sf := match sheet_first with
    | none => ""
    | some s => s
  let inpf := match input_first with
    | none => ""
    | some s => s
  let firstUpd : Option String :=
    if pyIn (pyLower sf) (pyLower inpf) = true ∨
        pyIn (pyLower inpf) (pyLower sf) = true then
      some (pyMaxByLen sf inpf)
    else none
  let lastUpd : Option String :=
    match sheet_last, input_last with
    | some sl, some il =>
      if pyIn (pyLower sl) (pyLower il) = true ∨
          pyIn (pyLower il) (pyLower sl) = true then
        some (pyMaxByLen sl il)
      else none
    | _, _ => none
  if firstUpd = none ∧ lastUpd = none then db
  else
    { db with people := db.people.map (fun p =>
        if p.id = person_id then
          { p with
            first_name := match firstUpd with
              | some v => some v
              | none => p.first_name,
            last_name := match lastUpd with
              | some v => some v
              | none => p.last_name }
        else p) }

/-- The normalized row dict passed to `find_person_id`. -/
structure ImportRow where
  first_name : Option String
  last_name : Option String
  email : Option String
  phone : Option String
deriving DecidableEq, Repr

/-- `SELECT person_id FROM Contacts WHERE LOWER(contact_value) =
LOWER(%s)` followed by `fetchone()`: the first contact row whose value
matches case-insensitively. -/
def contactLookup (db : DB) (value : String) : Option ContactRow :=
  db.contacts.find? (fun c => pyLower c.contact_value == pyLower value)

/-- The body of the email/phone match branches of `find_person_id`
(lines 183-216): fetch the matched person's stored names, merge names
by substring, and return the person id.  (If the contact referenced a
nonexistent person the script would crash; under the schema's
referential integrity the person is always found.) -/
def acceptContactMatch (db : DB) (c : ContactRow)
    (first_name last_name : Option String) : Option Nat × DB :=
  match db.people.find? (fun p => p.id == c.person_id) with
  | some per => (some c.person_id,
      update_names_if_substring db c.person_id per.first_name per.last_name
        first_name last_name)
  | none => (some c.person_id, db)

/-- Python list indexing `l[i]` with negative-index support, as used
by `potentials[int(choice)]`; out-of-range indices raise (modelled as
`none`, caught by the surrounding `except`). -/
def pyIndex {α : Type} (l : List α) (i : Int) : Option α :=
  if 0 ≤ i then l.get? i.toNat
  else if -(l.length : Int) ≤ i then l.get? (l.length - (-i).toNat)
  else none

/-- The interactive selection prompt of `find_person_id` (repeated at
lines 240-258, 284-301 and 303-320): read one response; "n" (in any
case) or an invalid index skips the row and records the name in the
handle list, a valid index selects that candidate.  `input()` on an
exhausted response stream is modelled as returning "". -/
def promptSelect (cands : List PersonRow) (db : DB)
    (first_name last_name : Option String) (responses : List String) :
    Option Nat × DB × List String × List (Option String × Option String) :=
  let choice := responses.headD ""
  let rest := responses.tail
  if pyLower choice = "n" then (none, db, rest, [(first_name, last_name)])
  else
    match choice.toInt? with
    | some i =>
      match pyIndex cands i with
      | some p => (some p.id,
          update_names_if_substring db p.id p.first_name p.last_name
            first_name last_name,
          rest, [])
      | none => (none, db, rest, [(first_name, last_name)])
    | none => (none, db, rest, [(first_name, last_name)])

/-- The fuzzy-matching tail of `find_person_id` (lines 260-324):
compare the query names against every People row, auto-accept a unique
auto_accept candidate, prompt on several auto_accepts or on any
manual_reviews, otherwise record the name as unmatched. -/
def fpiFuzzy (first_name last_name : Option String) (fn : String) (db : DB)
    (responses : List String) (θ : ℚ) :
    Option Nat × DB × List String × List (Option String × Option String) :=
  let lnStr := last_name.getD ""
  let auto_accepts := db.people.filter (fun c =>
    compare_names fn lnStr (c.first_name.getD "") (c.last_name.getD "") θ
      == Verdict.auto_accept)
  let manual_reviews := db.people.filter (fun c =>
    compare_names fn lnStr (c.first_name.getD "") (c.last_name.getD "") θ
      == Verdict.manual_review)
  match auto_accepts with
  | [p] => (some p.id,
      update_names_if_substring db p.id p.first_name p.last_name
        first_name last_name,
      responses, [])
  | [] =>
    match manual_reviews with
    | [] => (none, db, responses, [(first_name, last_name)])
    | _ => promptSelect manual_reviews db first_name last_name responses
  | _ => promptSelect auto_accepts db first_name last_name responses

/-- The exact-name matching part of `find_person_id` (lines 221-258):
query People by lowercased first name (and last name when truthy);
accept a unique hit, prompt on several, fall back to fuzzy matching on
none. -/
def fpiExactName (first_name last_name : Option String) (fn : String)
    (db : DB) (responses : List String) (θ : ℚ) :
    Option Nat × DB × List String × List (Option String × Option String) :=
  let lnq : Option String := match last_name with
    | some l => if l = "" then none else some l
    | none => none
  let potentials := db.people.filter (fun p =>
    (p.first_name.map pyLower == some fn) &&
    (match lnq with
     | some l => p.last_name.map pyLower == some l
     | none => true))
  match potentials with
  | [p] => (some p.id,
      update_names_if_substring db p.id p.first_name p.last_name
        first_name last_name,
      responses, [])
  | [] => fpiFuzzy first_name last_name fn db responses θ
  | _ => promptSelect potentials db first_name last_name responses

/-- The `if not first_name: return None` guard and the name-matching
tail of `find_person_id` (lines 218-324). -/
def fpiNames (first_name last_name : Option String) (db : DB)
    (responses : List String) (θ : ℚ) :
    Option Nat × DB × List String × List (Option String × Option String) :=
  match first_name with
  | none => (none, db, responses, [])
  | some fn =>
    if fn = "" then (none, db, responses, [])
    else fpiExactName first_name last_name fn db responses θ

/-- raw_csv_to_sql.py `find_person_id` (lines 175-324).  Returns the
matched person id (if any), the resulting database (name merges may
update People), the remaining interactive responses, and the entries
appended to `handle_indices_list`. -/
def find_person_id (row : ImportRow) (db : DB) (useEmail usePhone : Bool)
    (responses : List String) (fuzzy_threshold : ℚ) :
    Option Nat × DB × List String × List (Option String × Option String) :=
  let first_name := row.first_name.map (fun s => pyLower (pyStrip s))
  let last_name := row.last_name.map (fun s => pyLower (pyStrip s))
  let emailRes : Option (Option Nat × DB) :=
    match (if useEmail then row.email else none) with
    | some email =>
      match contactLookup db email with
      | some c => some (acceptContactMatch db c first_name last_name)
      | none => none
    | none => none
  match emailRes with
  | some r => (r.1, r.2, responses, [])
  | none =>
    let phoneRes : Option (Option Nat × DB) :=
      match (if usePhone then row.phone else none) with
      | some phone =>
        match contactLookup db phone with
        | some c => some (acceptContactMatch db c first_name last_name)
        | none => none
      | none => none
    match phoneRes with
    | some r => (r.1, r.2, responses, [])
    | none => fpiNames first_name last_name db responses fuzzy_threshold

/-- `pyMaxByLen` picks one of its two arguments and its length is
maximal among the two. -/
theorem pyMaxByLen_spec (x y : String) :
    (pyMaxByLen x y = x ∨ pyMaxByLen x y = y) ∧
    x.length ≤ (pyMaxByLen x y).length ∧
    y.length ≤ (pyMaxByLen x y).length := by
  unfold pyMaxByLen
  split
  · exact ⟨Or.inr rfl, by omega, le_refl _⟩
  · exact ⟨Or.inl rfl, le_refl _, by omega⟩

/-- When both name pairs are case-insensitively substring-related,
`update_names_if_substring` rewrites the matched person's stored
names to the longer version of each pair. -/
theorem update_names_both (sf sl inpf il : String)
    (hf : pyIn (pyLower sf) (pyLower inpf) = true ∨
      pyIn (pyLower inpf) (pyLower sf) = true)
    (hl : pyIn (pyLower sl) (pyLower il) = true ∨
      pyIn (pyLower il) (pyLower sl) = true)
    (d : DB) (pid : Nat) :
    (update_names_if_substring d pid (some sf) (some sl) (some inpf)
      (some il)).people =
    d.people.map (fun q => if q.id = pid then
      { q with first_name := some (pyMaxByLen sf inpf),
               last_name := some (pyMaxByLen sl il) } else q) := by
  unfold update_names_if_substring
  simp [if_pos hf, if_pos hl]


/-- C3: an import row whose email — or, when the email gives no
contact match, whose phone — equals, case-insensitively, the
contact_value of an existing Contacts row is resolved to that row's
person_id: no name check or human prompt happens (the response stream
is untouched and nothing is added to the unmatched list), and the only
database change is the substring-based name merge of the stored names
with the incoming (stripped, lowercased) names, which replaces each
stored name by the longer of the two whenever one is a
case-insensitive substring of the other.  The first conjunct is the
email branch (lines 183-197), the second the phone branch (lines
201-216), which runs when the queried email, if any, matched no
contact. -/
theorem claim_C3 (row : ImportRow) (db : DB) (useEmail usePhone : Bool)
    (responses : List String) (θ : ℚ) (c : ContactRow) (p : PersonRow) :
    (∀ e : String, useEmail = true → row.email = some e →
      db.contacts.find?
        (fun r => pyLower r.contact_value == pyLower e) = some c →
      db.people.find? (fun q => q.id == c.person_id) = some p →
      (find_person_id row db useEmail usePhone responses θ).1 =
        some c.person_id ∧
      (find_person_id row db useEmail usePhone responses θ).2.1 =
        update_names_if_substring db c.person_id p.first_name p.last_name
          (row.first_name.map (fun s => pyLower (pyStrip s)))
          (row.last_name.map (fun s => pyLower (pyStrip s))) ∧
      (find_person_id row db useEmail usePhone responses θ).2.2.1 =
        responses ∧
      (find_person_id row db useEmail usePhone responses θ).2.2.2 = []) ∧
    (∀ ph : String,
      (∀ e : String, (if useEmail = true then row.email else none) =
          some e →
        db.contacts.find?
          (fun r => pyLower r.contact_value == pyLower e) = none) →
      usePhone = true → row.phone = some ph →
      db.contacts.find?
        (fun r => pyLower r.contact_value == pyLower ph) = some c →
      db.people.find? (fun q => q.id == c.person_id) = some p →
      (find_person_id row db useEmail usePhone responses θ).1 =
        some c.person_id ∧
      (find_person_id row db useEmail usePhone responses θ).2.1 =
        update_names_if_substring db c.person_id p.first_name p.last_name
          (row.first_name.map (fun s => pyLower (pyStrip s)))
          (row.last_name.map (fun s => pyLower (pyStrip s))) ∧
      (find_person_id row db useEmail usePhone responses θ).2.2.1 =
        responses ∧
      (find_person_id row db useEmail usePhone responses θ).2.2.2 = []) ∧
    (∀ sf sl inpf il : String,
      (pyIn (pyLower sf) (pyLower inpf) = true ∨
        pyIn (pyLower inpf) (pyLower sf) = true) →
      (pyIn (pyLower sl) (pyLower il) = true ∨
        pyIn (pyLower il) (pyLower sl) = true) →
      ((pyMaxByLen sf inpf = sf ∨ pyMaxByLen sf inpf = inpf) ∧
        sf.length ≤ (pyMaxByLen sf inpf).length ∧
        inpf.length ≤ (pyMaxByLen sf inpf).length ∧
        (pyMaxByLen sl il = sl ∨ pyMaxByLen sl il = il) ∧
        sl.length ≤ (pyMaxByLen sl il).length ∧
        il.length ≤ (pyMaxByLen sl il).length) ∧
      ∀ (d : DB) (pid : Nat),
        (update_names_if_substring d pid (some sf) (some sl) (some inpf)
          (some il)).people =
        d.people.map (fun q => if q.id = pid then
          { q with first_name := some (pyMaxByLen sf inpf),
                   last_name := some (pyMaxByLen sl il) } else q)) := by
  refine ⟨?_, ?_, ?_⟩
  · intro e hue he hc hp
    have hmain : find_person_id row db useEmail usePhone responses θ =
        (some c.person_id,
          update_names_if_substring db c.person_id p.first_name p.last_name
            (row.first_name.map (fun s => pyLower (pyStrip s)))
            (row.last_name.map (fun s => pyLower (pyStrip s))),
          responses, []) := by
      simp only [find_person_id, contactLookup, acceptContactMatch, hue,
        if_true, he, hc, hp]
    exact ⟨by rw [hmain], by rw [hmain], by rw [hmain], by rw [hmain]⟩
  · intro ph hno hup hph hc hp
    have hmain : find_person_id row db useEmail usePhone responses θ =
        (some c.person_id,
          update_names_if_substring db c.person_id p.first_name p.last_name
            (row.first_name.map (fun s => pyLower (pyStrip s)))
            (row.last_name.map (fun s => pyLower (pyStrip s))),
          responses, []) := by
      simp only [find_person_id, contactLookup, acceptContactMatch]
      cases hq : (if useEmail = true then row.email else none) with
      | none =>
        simp only [hup, if_true, hph, hc, hp]
      | some e =>
        dsimp only
        rw [hno e hq]
        simp only [hup, if_true, hph, hc, hp]
    exact ⟨by rw [hmain], by rw [hmain], by rw [hmain], by rw [hmain]⟩
  · intro sf sl inpf il hf hl
    obtain ⟨hfo, hfl1, hfl2⟩ := pyMaxByLen_spec sf inpf
    obtain ⟨hlo, hll1, hll2⟩ := pyMaxByLen_spec sl il
    exact ⟨⟨hfo, hfl1, hfl2, hlo, hll1, hll2⟩,
      fun d pid => update_names_both sf sl inpf il hf hl d pid⟩
/-- Person row for the C3 witness database. -/
def c3person : PersonRow :=
  { id := 1, first_name := some "Jo", last_name := some "Smith",
    gender := none, class_year := none, is_jewish := none, school := none,
    preferred_name := none, referral_count := 0 }

/-- Contact row for the C3 witness database. -/
def c3contact : ContactRow :=
  { person_id := 1, contact_type := "personal email",
    contact_value := "A@B.com", is_verified := false }

/-- The C3 witness database. -/
def c3db : DB :=
  { people := [c3person], contacts := [c3contact], attendance := [],
    mailingList := [], allMailing := [], nextPersonId := 2 }

/-- The C3 witness import row: email matches "A@B.com" up to case. -/
def c3row : ImportRow :=
  { first_name := some "Joseph", last_name := some "Smith",
    email := some "a@b.com", phone := none }

/-- Contact row for the C3 phone-branch witness database. -/
def c3pcontact : ContactRow :=
  { person_id := 1, contact_type := "phone",
    contact_value := "6175550123", is_verified := false }

/-- The C3 phone-branch witness database. -/
def c3pdb : DB :=
  { people := [c3person], contacts := [c3pcontact], attendance := [],
    mailingList := [], allMailing := [], nextPersonId := 2 }

/-- The C3 phone-branch witness import row: its email matches no
contact, its phone matches the stored "6175550123". -/
def c3prow : ImportRow :=
  { first_name := some "Joseph", last_name := some "Smith",
    email := some "nomatch@x.com", phone := some "6175550123" }

/-- C3, witness at concrete inputs for both branches: the email
"a@b.com" matches the stored contact "A@B.com" case-insensitively and
person 1 is returned with the stored first name "Jo" (a
case-insensitive substring of "joseph") replaced by the longer
"joseph"; and a row whose email "nomatch@x.com" matches no contact is
resolved through its phone "6175550123" to person 1 with the same name
merge and nothing added to the unmatched list. -/
theorem claim_C3_witness :
    ((find_person_id c3row c3db true false [] (mkRat 4 5)).1 = some 1 ∧
     ((find_person_id c3row c3db true false [] (mkRat 4 5)).2.1).people =
       [{ c3person with first_name := some "joseph" }]) ∧
    ((find_person_id c3prow c3pdb true true [] (mkRat 4 5)).1 = some 1 ∧
     ((find_person_id c3prow c3pdb true true [] (mkRat 4 5)).2.1).people =
       [{ c3person with first_name := some "joseph" }] ∧
     (find_person_id c3prow c3pdb true true [] (mkRat 4 5)).2.2.2 = []) := by
  constructor
  · have h := (claim_C3 c3row c3db true false [] (mkRat 4 5) c3contact
      c3person).1 "a@b.com" rfl rfl (by decide) (by decide)
    exact ⟨by rw [h.1]; rfl, by rw [h.2.1]; decide⟩
  · have h := (claim_C3 c3prow c3pdb true true [] (mkRat 4 5) c3pcontact
      c3person).2.1 "6175550123"
      (fun e he => by simp [c3prow] at he; subst he; decide)
      rfl rfl (by decide) (by decide)
    exact ⟨by rw [h.1]; rfl, by rw [h.2.1]; decide, by rw [h.2.2.2]⟩


/-- `INSERT INTO Contacts ... ON CONFLICT (person_id, contact_type,
contact_value) DO NOTHING` (used at lines 771-821): append the row
unless one with the same key triple already exists. -/
def insertContact (db : DB) (pid : Nat) (ctype cval : String)
    (verified : Bool) : DB :=
  if db.contacts.any (fun r => decide (r.person_id = pid) &&
      decide (r.contact_type = ctype) && decide (r.contact_value = cval))
  then db
  else { db with contacts := db.contacts ++
      [{ person_id := pid, contact_type := ctype, contact_value := cval,
         is_verified := verified }] }

/-- `INSERT INTO Attendance ... ON CONFLICT (person_id, event_id) DO
NOTHING` (lines 831-847): append the row unless one with the same
(person_id, event_id) already exists. -/
def insertAttendance (db : DB) (row : AttendanceRow) : DB :=
  if db.attendance.any (fun r => decide (r.person_id = row.person_id) &&
      decide (r.event_id = row.event_id))
  then db
  else { db with attendance := db.attendance ++ [row] }

/-- `INSERT INTO People ... RETURNING id` (lines 753-768): append a
fresh People row and return its id from the sequence. -/
def insertPerson (db : DB) (fn ln : String) (g : Option String)
    (cy : Option Int) (ij : Option Bool) (sch : Option String) : Nat × DB :=
  (db.nextPersonId,
   { db with
     people := db.people ++
       [{ id := db.nextPersonId, first_name := some fn,
          last_name := some ln, gender := g, class_year := cy,
          is_jewish := ij, school := sch, preferred_name := none,
          referral_count := 0 }],
     nextPersonId := db.nextPersonId + 1 })

/-- `UPDATE People SET referral_count = referral_count + 1 WHERE id =
%s` (lines 905-910). -/
def incrementReferral (db : DB) (pid : Nat) : DB :=
  { db with people := db.people.map (fun p =>
      if p.id = pid then { p with referral_count := p.referral_count + 1 }
      else p) }

/-- Generic tracking codes skipped by
`match_tracking_link_to_person` (lines 345-349). -/
def genericCodes : List String :=
  ["default", "emailreferral", "email_first_button", "email_second_button",
   "email", "txt", "insta", "maillist", "lastname", "[name]"]

/-- raw_csv_to_sql.py `match_tracking_link_to_person` (lines 326-400):
exact match of the cleaned link against first names (and last names
for multi-word links), falling back to a best-ratio fuzzy match
against the threshold. -/
def match_tracking_link_to_person (db : DB) (link_value : Option String)
    (θ : ℚ) : Option Nat :=
  match link_value with
  | none => none
  | some lv0 =>
    let lv := pyLower (pyStrip lv0)
    if lv ∈ genericCodes then none
    else
      let is_single_word : Bool := !(pyIn "_" lv) && !(pyIn "-" lv)
      let clean_name := pyStrip (String.mk (lv.toList.map (fun c =>
        if c = '_' then ' ' else if c = '-' then ' ' else c)))
      match db.people.find? (fun p =>
          (clean_name == pyLower (p.first_name.getD "")) ||
          ((!is_single_word) &&
            (clean_name == pyLower (p.last_name.getD "")))) with
      | some p => some p.id
      | none =>
        (db.people.foldl (fun st p =>
          let first := pyLower (p.first_name.getD "")
          let last := pyLower (p.last_name.getD "")
          let st1 := if first ≠ "" then
              (if θ ≤ fuzzy_ratio clean_name first ∧
                  st.1 < fuzzy_ratio clean_name first then
                (fuzzy_ratio clean_name first, some p.id)
              else st)
            else st
          if (!is_single_word) = true ∧ last ≠ "" then
            (if θ ≤ fuzzy_ratio clean_name last ∧
                st1.1 < fuzzy_ratio clean_name last then
              (fuzzy_ratio clean_name last, some p.id)
            else st1)
          else st1)
          ((0 : ℚ), (none : Option Nat))).2

/-- Python `str.title()` on ASCII data: uppercase a letter that does
not follow a letter, lowercase the rest. -/
def pyTitleGo : Bool → List Char → List Char
  | _, [] => []
  | prevAlpha, c :: cs =>
    if c.isAlpha then
      (if prevAlpha then c.toLower else c.toUpper) :: pyTitleGo true cs
    else c :: pyTitleGo false cs

/-- Python `str.title()`. -/
def pyTitle (s : String) : String :=
  String.mk (pyTitleGo false s.toList)

/-- One CSV row as read by the per-row loop of `import_csv` (lines
709-717), with the `_norm_*` columns that the loop reads already
computed by the preceding normalization pass (which applies
`normalize_gender`, `normalize_school_with_email`,
`parse_class_year` and `normalize_is_jewish`); missing/NaN cells are
`none`, and the invite token has already been `fillna`-defaulted to
"default". -/
structure CsvRow where
  first_name : Option String
  last_name : Option String
  email : Option String
  school_email : Option String
  phone : Option String
  invite_token : String
  rsvp_status : Option String
  rsvp_datetime : Option String
  attended : Option String
  referral : Option String
  norm_gender : Option String
  norm_school : Option String
  norm_class_year : Option Int
  norm_is_jewish : Option Bool
deriving DecidableEq, Repr

/-- `invite_token_map.get(key)` over the token map built before the
row loop. -/
def lookupToken (m : List (String × Nat)) (k : String) : Option Nat :=
  (m.find? (fun p => p.1 == k)).map (fun p => p.2)

/-- The referral-count block run for checked-in rows (lines 880-912):
resolve a referrer from the tracking link and/or the referral column
and increment their referral_count unless it is a self-referral. -/
def referralUpdate (db : DB) (pid : Nat) (invite_token : String)
    (referral : Option String) (responses : List String) :
    DB × List String :=
  let referrer1 := if invite_token ≠ "" then
      match_tracking_link_to_person db (some invite_token) (mkRat 4 5)
    else none
  let refRes : Option Nat × DB × List String := match referral with
    | some rn =>
      let rrow : ImportRow :=
        { first_name := some (pyStrip rn), last_name := some "",
          email := none, phone := none }
      let r := find_person_id rrow db false false responses (mkRat 4 5)
      (r.1, r.2.1, r.2.2.1)
    | none => (none, db, responses)
  let referrer := match refRes.1 with
    | some r => if r = 0 then referrer1 else some r
    | none => referrer1
  match referrer with
  | some rid =>
    (if rid ≠ 0 ∧ rid ≠ pid then incrementReferral refRes.2.1 rid
     else refRes.2.1, refRes.2.2)
  | none => (refRes.2.1, refRes.2.2)

/-- The three conditional Contacts inserts performed for each row
(lines 771-795 for a new person, identically lines 798-821 for a
matched person). -/
def importRowContacts (db : DB) (pid : Nat)
    (school_email_clean email_clean phone_clean : String) : DB :=
  let db3 := if school_email_clean ≠ "" then
      insertContact db pid "school email" school_email_clean false
    else db
  let db4 := if email_clean ≠ "" ∧ email_clean ≠ school_email_clean then
      insertContact db3 pid
        (if pyIn ".edu" email_clean = true then "school email"
         else "personal email") email_clean false
    else db3
  if phone_clean ≠ "" then insertContact db4 pid "phone" phone_clean false
  else db4

/-- The body of the per-row loop of `import_csv` (lines 709-914):
clean the row, resolve or create the person, insert contacts and the
attendance record, and update referral counts for checked-in rows.
The state threads the database, the interactive response stream, and
the accumulated unmatched-name list. -/
def import_csv_row (eventId : Nat) (tokenMap : List (String × Nat))
    (st : DB × List String × List (Option String × Option String))
    (row : CsvRow) : DB × List String × List (Option String × Option String) :=
  let db := st.1
  let responses := st.2.1
  let handles := st.2.2
  let first_name_clean := match row.first_name with
    | some s => if pyStrip s ≠ "" then pyTitle (pyStrip s) else ""
    | none => ""
  let last_name_clean := match row.last_name with
    | some s => if pyStrip s ≠ "" then pyTitle (pyStrip s) else ""
    | none => ""
  let email_clean := match row.email with
    | some s => pyLower (pyStrip s)
    | none => ""
  let school_email_clean := match row.school_email with
    | some s => pyLower (pyStrip s)
    | none => ""
  let phone_clean := match row.phone with
    | some s => pyStrip s
    | none => ""
  let primary_email := if school_email_clean ≠ "" then school_email_clean
    else email_clean
  let mrow : ImportRow :=
    { first_name := some first_name_clean,
      last_name := some last_name_clean, email := some primary_email,
      phone := some phone_clean }
  let fr := find_person_id mrow db true true responses (mkRat 4 5)
  let handles1 := handles ++ fr.2.2.2
  let pidDb : Nat × DB := match fr.1 with
    | some pid => (pid, fr.2.1)
    | none => insertPerson fr.2.1 first_name_clean last_name_clean
        row.norm_gender row.norm_class_year row.norm_is_jewish
        row.norm_school
  let db5 := importRowContacts pidDb.2 pidDb.1 school_email_clean
    email_clean phone_clean
  let checked_in_val : Bool := match row.attended with
    | some s => decide (pyLower (pyStrip s) ∈ ["1", "1.0", "true", "yes"])
    | none => false
  let invite_token_id := match lookupToken tokenMap row.invite_token with
    | some i => some i
    | none => lookupToken tokenMap "default"
  let db6 := insertAttendance db5
    { person_id := pidDb.1,
      event_id := eventId, rsvp := row.rsvp_status.isSome,
      approved := row.rsvp_status == some "Completed",
      checked_in := checked_in_val, rsvp_datetime := row.rsvp_datetime,
      is_first_event := false, invite_token_id := invite_token_id }
  if checked_in_val = true then
    let r := referralUpdate db6 pidDb.1 row.invite_token row.referral
      fr.2.2.1
    (r.1, r.2, handles1)
  else (db6, fr.2.2.1, handles1)

/-- The per-row loop of `import_csv` over a list of CSV rows. -/
def import_csv_rows (eventId : Nat) (tokenMap : List (String × Nat))
    (db : DB) (responses : List String) (rows : List CsvRow) :
    DB × List String × List (Option String × Option String) :=
  rows.foldl (import_csv_row eventId tokenMap) (db, responses, [])

/-- The unique key triple of a Contacts row. -/
def contactKey (r : ContactRow) : Nat × String × String :=
  (r.person_id, r.contact_type, r.contact_value)

/-- No two Contacts rows share the (person_id, contact_type,
contact_value) triple. -/
def noDupContacts (db : DB) : Prop :=
  db.contacts.Pairwise (fun r s => contactKey r ≠ contactKey s)

/-- No two Attendance rows share the (person_id, event_id) pair. -/
def noDupAttendance (db : DB) : Prop :=
  db.attendance.Pairwise (fun r s =>
    (r.person_id, r.event_id) ≠ (s.person_id, s.event_id))

/-- A Contacts row with this key triple already exists. -/
def contactExists (db : DB) (pid : Nat) (ct cv : String) : Prop :=
  db.contacts.any (fun r => decide (r.person_id = pid) &&
    decide (r.contact_type = ct) && decide (r.contact_value = cv)) = true

/-- An Attendance row with this (person_id, event_id) already exists. -/
def attendanceExists (db : DB) (pid eid : Nat) : Prop :=
  db.attendance.any (fun r => decide (r.person_id = pid) &&
    decide (r.event_id = eid)) = true


theorem update_names_frame (db : DB) (pid : Nat) (a b c d : Option String) :
    (update_names_if_substring db pid a b c d).contacts = db.contacts ∧
    (update_names_if_substring db pid a b c d).attendance = db.attendance := by
  refine ⟨?_, ?_⟩ <;>
    (simp only [update_names_if_substring]; split_ifs <;> rfl)

theorem acceptContactMatch_frame (db : DB) (c : ContactRow)
    (fn ln : Option String) :
    ((acceptContactMatch db c fn ln).2).contacts = db.contacts ∧
    ((acceptContactMatch db c fn ln).2).attendance = db.attendance := by
  unfold acceptContactMatch
  split
  · exact update_names_frame _ _ _ _ _ _
  · exact ⟨rfl, rfl⟩

theorem promptSelect_frame (cands : List PersonRow) (db : DB)
    (fn ln : Option String) (rs : List String) :
    ((promptSelect cands db fn ln rs).2.1).contacts = db.contacts ∧
    ((promptSelect cands db fn ln rs).2.1).attendance = db.attendance := by
  unfold promptSelect
  dsimp only
  split
  · exact ⟨rfl, rfl⟩
  · split
    · split
      · exact update_names_frame _ _ _ _ _ _
      · exact ⟨rfl, rfl⟩
    · exact ⟨rfl, rfl⟩

theorem fpiFuzzy_frame (fn ln : Option String) (f : String) (db : DB)
    (rs : List String) (θ : ℚ) :
    ((fpiFuzzy fn ln f db rs θ).2.1).contacts = db.contacts ∧
    ((fpiFuzzy fn ln f db rs θ).2.1).attendance = db.attendance := by
  unfold fpiFuzzy
  dsimp only
  split
  · exact update_names_frame _ _ _ _ _ _
  · split
    · exact ⟨rfl, rfl⟩
    · exact promptSelect_frame _ _ _ _ _
  · exact promptSelect_frame _ _ _ _ _

theorem fpiExactName_frame (fn ln : Option String) (f : String) (db : DB)
    (rs : List String) (θ : ℚ) :
    ((fpiExactName fn ln f db rs θ).2.1).contacts = db.contacts ∧
    ((fpiExactName fn ln f db rs θ).2.1).attendance = db.attendance := by
  unfold fpiExactName
  dsimp only
  split
  · exact update_names_frame _ _ _ _ _ _
  · exact fpiFuzzy_frame _ _ _ _ _ _
  · exact promptSelect_frame _ _ _ _ _

theorem fpiNames_frame (fn ln : Option String) (db : DB)
    (rs : List String) (θ : ℚ) :
    ((fpiNames fn ln db rs θ).2.1).contacts = db.contacts ∧
    ((fpiNames fn ln db rs θ).2.1).attendance = db.attendance := by
  unfold fpiNames
  split
  · exact ⟨rfl, rfl⟩
  · split
    · exact ⟨rfl, rfl⟩
    · exact fpiExactName_frame _ _ _ _ _ _

theorem find_person_id_frame (row : ImportRow) (db : DB) (ue up : Bool)
    (rs : List String) (θ : ℚ) :
    ((find_person_id row db ue up rs θ).2.1).contacts = db.contacts ∧
    ((find_person_id row db ue up rs θ).2.1).attendance = db.attendance := by
  unfold find_person_id
  dsimp only
  cases hue : (if ue = true then row.email else none) with
  | some email =>
    dsimp only
    cases hcl : contactLookup db email with
    | some c =>
      dsimp only
      exact acceptContactMatch_frame _ _ _ _
    | none =>
      dsimp only
      cases hup : (if up = true then row.phone else none) with
      | some phone =>
        dsimp only
        cases hcp : contactLookup db phone with
        | some c =>
          dsimp only
          exact acceptContactMatch_frame _ _ _ _
        | none =>
          dsimp only
          exact fpiNames_frame _ _ _ _ _
      | none =>
        dsimp only
        exact fpiNames_frame _ _ _ _ _
  | none =>
    dsimp only
    cases hup : (if up = true then row.phone else none) with
    | some phone =>
      dsimp only
      cases hcp : contactLookup db phone with
      | some c =>
        dsimp only
        exact acceptContactMatch_frame _ _ _ _
      | none =>
        dsimp only
        exact fpiNames_frame _ _ _ _ _
    | none =>
      dsimp only
      exact fpiNames_frame _ _ _ _ _

theorem insertContact_attendance (db : DB) (pid : Nat) (ct cv : String)
    (v : Bool) : (insertContact db pid ct cv v).attendance = db.attendance := by
  unfold insertContact
  split <;> rfl

theorem insertAttendance_contacts (db : DB) (r : AttendanceRow) :
    (insertAttendance db r).contacts = db.contacts := by
  unfold insertAttendance
  split <;> rfl

theorem insertPerson_frame (db : DB) (fn ln : String) (g : Option String)
    (cy : Option Int) (ij : Option Bool) (sch : Option String) :
    ((insertPerson db fn ln g cy ij sch).2).contacts = db.contacts ∧
    ((insertPerson db fn ln g cy ij sch).2).attendance = db.attendance :=
  ⟨rfl, rfl⟩

theorem referralUpdate_frame (db : DB) (pid : Nat) (tok : String)
    (ref : Option String) (rs : List String) :
    ((referralUpdate db pid tok ref rs).1).contacts = db.contacts ∧
    ((referralUpdate db pid tok ref rs).1).attendance = db.attendance := by
  unfold referralUpdate
  dsimp only
  cases ref with
  | none =>
    dsimp only
    split
    · split
      · exact ⟨rfl, rfl⟩
      · exact ⟨rfl, rfl⟩
    · exact ⟨rfl, rfl⟩
  | some rn =>
    dsimp only
    split
    · split
      · exact find_person_id_frame _ _ _ _ _ _
      · exact find_person_id_frame _ _ _ _ _ _
    · exact find_person_id_frame _ _ _ _ _ _

theorem importRowContacts_attendance (db : DB) (pid : Nat) (a b c : String) :
    (importRowContacts db pid a b c).attendance = db.attendance := by
  unfold importRowContacts
  dsimp only
  split_ifs <;> simp [insertContact_attendance]

theorem noDupContacts_of_eq {d1 d2 : DB} (h : d1.contacts = d2.contacts)
    (hd : noDupContacts d2) : noDupContacts d1 := by
  unfold noDupContacts at hd ⊢
  rw [h]
  exact hd

theorem noDupAttendance_of_eq {d1 d2 : DB} (h : d1.attendance = d2.attendance)
    (hd : noDupAttendance d2) : noDupAttendance d1 := by
  unfold noDupAttendance at hd ⊢
  rw [h]
  exact hd

theorem insertContact_noDup (db : DB) (pid : Nat) (ct cv : String) (v : Bool)
    (h : noDupContacts db) : noDupContacts (insertContact db pid ct cv v) := by
  unfold insertContact
  split
  · exact h
  · next hne =>
    unfold noDupContacts at h ⊢
    dsimp only
    rw [List.pairwise_append]
    refine ⟨h, List.pairwise_singleton _ _, ?_⟩
    intro r hr y hy
    rw [List.mem_singleton] at hy
    subst hy
    intro hk
    apply hne
    rw [List.any_eq_true]
    refine ⟨r, hr, ?_⟩
    simp [contactKey, Prod.ext_iff] at hk
    simp [hk.1, hk.2.1, hk.2.2]

theorem insertAttendance_noDup (db : DB) (row : AttendanceRow)
    (h : noDupAttendance db) : noDupAttendance (insertAttendance db row) := by
  unfold insertAttendance
  split
  · exact h
  · next hne =>
    unfold noDupAttendance at h ⊢
    dsimp only
    rw [List.pairwise_append]
    refine ⟨h, List.pairwise_singleton _ _, ?_⟩
    intro r hr y hy
    rw [List.mem_singleton] at hy
    subst hy
    intro hk
    apply hne
    rw [List.any_eq_true]
    refine ⟨r, hr, ?_⟩
    simp [Prod.ext_iff] at hk
    simp [hk.1, hk.2]

theorem importRowContacts_noDup (db : DB) (pid : Nat) (a b c : String)
    (h : noDupContacts db) : noDupContacts (importRowContacts db pid a b c) := by
  unfold importRowContacts
  dsimp only
  split_ifs <;> (repeat' apply insertContact_noDup) <;> exact h

theorem import_csv_row_noDupContacts (eventId : Nat)
    (tokenMap : List (String × Nat))
    (st : DB × List String × List (Option String × Option String))
    (row : CsvRow) (h : noDupContacts st.1) :
    noDupContacts (import_csv_row eventId tokenMap st row).1 := by
  unfold import_csv_row
  dsimp only
  split
  · apply noDupContacts_of_eq (referralUpdate_frame _ _ _ _ _).1
    apply noDupContacts_of_eq (insertAttendance_contacts _ _)
    apply importRowContacts_noDup
    split
    · exact noDupContacts_of_eq (find_person_id_frame _ _ _ _ _ _).1 h
    · apply noDupContacts_of_eq (insertPerson_frame _ _ _ _ _ _ _).1
      exact noDupContacts_of_eq (find_person_id_frame _ _ _ _ _ _).1 h
  · apply noDupContacts_of_eq (insertAttendance_contacts _ _)
    apply importRowContacts_noDup
    split
    · exact noDupContacts_of_eq (find_person_id_frame _ _ _ _ _ _).1 h
    · apply noDupContacts_of_eq (insertPerson_frame _ _ _ _ _ _ _).1
      exact noDupContacts_of_eq (find_person_id_frame _ _ _ _ _ _).1 h

theorem import_csv_row_noDupAttendance (eventId : Nat)
    (tokenMap : List (String × Nat))
    (st : DB × List String × List (Option String × Option String))
    (row : CsvRow) (h : noDupAttendance st.1) :
    noDupAttendance (import_csv_row eventId tokenMap st row).1 := by
  unfold import_csv_row
  dsimp only
  split
  · apply noDupAttendance_of_eq (referralUpdate_frame _ _ _ _ _).2
    apply insertAttendance_noDup
    apply noDupAttendance_of_eq (importRowContacts_attendance _ _ _ _ _)
    split
    · exact noDupAttendance_of_eq (find_person_id_frame _ _ _ _ _ _).2 h
    · apply noDupAttendance_of_eq (insertPerson_frame _ _ _ _ _ _ _).2
      exact noDupAttendance_of_eq (find_person_id_frame _ _ _ _ _ _).2 h
  · apply insertAttendance_noDup
    apply noDupAttendance_of_eq (importRowContacts_attendance _ _ _ _ _)
    split
    · exact noDupAttendance_of_eq (find_person_id_frame _ _ _ _ _ _).2 h
    · apply noDupAttendance_of_eq (insertPerson_frame _ _ _ _ _ _ _).2
      exact noDupAttendance_of_eq (find_person_id_frame _ _ _ _ _ _).2 h

theorem import_csv_rows_noDupContacts (eventId : Nat)
    (tokenMap : List (String × Nat)) (db : DB) (rs : List String)
    (rows : List CsvRow) (h : noDupContacts db) :
    noDupContacts (import_csv_rows eventId tokenMap db rs rows).1 := by
  unfold import_csv_rows
  suffices H : ∀ st : DB × List String × List (Option String × Option String),
      noDupContacts st.1 →
      noDupContacts (rows.foldl (import_csv_row eventId tokenMap) st).1 from
    H (db, rs, []) h
  induction rows with
  | nil => exact fun st h => h
  | cons r rest ih =>
    intro st h
    exact ih _ (import_csv_row_noDupContacts _ _ _ _ h)

theorem import_csv_rows_noDupAttendance (eventId : Nat)
    (tokenMap : List (String × Nat)) (db : DB) (rs : List String)
    (rows : List CsvRow) (h : noDupAttendance db) :
    noDupAttendance (import_csv_rows eventId tokenMap db rs rows).1 := by
  unfold import_csv_rows
  suffices H : ∀ st : DB × List String × List (Option String × Option String),
      noDupAttendance st.1 →
      noDupAttendance (rows.foldl (import_csv_row eventId tokenMap) st).1 from
    H (db, rs, []) h
  induction rows with
  | nil => exact fun st h => h
  | cons r rest ih =>
    intro st h
    exact ih _ (import_csv_row_noDupAttendance _ _ _ _ h)

/-- C4: over any sequence of import rows, the Contacts table keeps at
most one row per (person_id, contact_type, contact_value) triple, and
inserting a contact whose triple already exists leaves the table
unchanged (the `ON CONFLICT ... DO NOTHING` clause). -/
theorem claim_C4 (eventId : Nat) (tokenMap : List (String × Nat)) (db : DB)
    (responses : List String) (rows : List CsvRow) (h : noDupContacts db) :
    noDupContacts (import_csv_rows eventId tokenMap db responses rows).1 ∧
    ∀ (d : DB) (pid : Nat) (ct cv : String) (v : Bool),
      contactExists d pid ct cv → insertContact d pid ct cv v = d := by
  refine ⟨import_csv_rows_noDupContacts eventId tokenMap db responses rows h,
    ?_⟩
  intro d pid ct cv v he
  unfold contactExists at he
  unfold insertContact
  rw [if_pos he]

/-- C5: over any sequence of import rows, the Attendance table keeps
at most one row per (person_id, event_id) pair, and inserting an
attendance row whose pair already exists leaves the table unchanged
(the `ON CONFLICT (person_id, event_id) DO NOTHING` clause). -/
theorem claim_C5 (eventId : Nat) (tokenMap : List (String × Nat)) (db : DB)
    (responses : List String) (rows : List CsvRow) (h : noDupAttendance db) :
    noDupAttendance (import_csv_rows eventId tokenMap db responses rows).1 ∧
    ∀ (d : DB) (r : AttendanceRow),
      attendanceExists d r.person_id r.event_id → insertAttendance d r = d := by
  refine ⟨import_csv_rows_noDupAttendance eventId tokenMap db responses rows h,
    ?_⟩
  intro d r he
  unfold attendanceExists at he
  unfold insertAttendance
  rw [if_pos he]

/-- The empty database. -/
def emptyDB : DB :=
  { people := [], contacts := [], attendance := [], mailingList := [],
    allMailing := [], nextPersonId := 1 }

/-- A concrete CSV row used by the C4/C5 witnesses. -/
def c4row : CsvRow :=
  { first_name := some "Ann", last_name := some "Bee",
    email := some "ann@gmail.com", school_email := some "ann@mit.edu",
    phone := some "6175550123", invite_token := "default",
    rsvp_status := some "Completed", rsvp_datetime := none,
    attended := some "1", referral := none, norm_gender := none,
    norm_school := some "mit", norm_class_year := none,
    norm_is_jewish := none }

/-- C4, witness at a concrete input: importing the same row twice into
the empty database yields a duplicate-free Contacts table, and
re-inserting an existing contact triple is a no-op. -/
theorem claim_C4_witness :
    noDupContacts emptyDB ∧
    noDupContacts
      (import_csv_rows 7 [("default", 1)] emptyDB [] [c4row, c4row]).1 ∧
    contactExists
      (import_csv_rows 7 [("default", 1)] emptyDB [] [c4row]).1
      1 "phone" "6175550123" ∧
    insertContact
      (import_csv_rows 7 [("default", 1)] emptyDB [] [c4row]).1
      1 "phone" "6175550123" false =
    (import_csv_rows 7 [("default", 1)] emptyDB [] [c4row]).1 := by
  refine ⟨List.Pairwise.nil,
    (claim_C4 7 [("default", 1)] emptyDB [] [c4row, c4row]
      List.Pairwise.nil).1,
    by unfold contactExists; decide, ?_⟩
  exact (claim_C4 7 [("default", 1)] emptyDB [] [] List.Pairwise.nil).2
    _ 1 "phone" "6175550123" false (by unfold contactExists; decide)

/-- C5, witness at a concrete input: importing the same row twice into
the empty database yields a duplicate-free Attendance table, and
re-inserting an attendance row for an existing (person, event) pair is
a no-op. -/
theorem claim_C5_witness :
    noDupAttendance emptyDB ∧
    noDupAttendance
      (import_csv_rows 7 [("default", 1)] emptyDB [] [c4row, c4row]).1 ∧
    attendanceExists
      (import_csv_rows 7 [("default", 1)] emptyDB [] [c4row]).1 1 7 ∧
    insertAttendance
      (import_csv_rows 7 [("default", 1)] emptyDB [] [c4row]).1
      { person_id := 1, event_id := 7, rsvp := false, approved := false,
        checked_in := false, rsvp_datetime := none, is_first_event := false,
        invite_token_id := none } =
    (import_csv_rows 7 [("default", 1)] emptyDB [] [c4row]).1 := by
  refine ⟨List.Pairwise.nil,
    (claim_C5 7 [("default", 1)] emptyDB [] [c4row, c4row]
      List.Pairwise.nil).1,
    by unfold attendanceExists; decide, ?_⟩
  exact (claim_C5 7 [("default", 1)] emptyDB [] [] List.Pairwise.nil).2
    _ { person_id := 1, event_id := 7, rsvp := false, approved := false,
        checked_in := false, rsvp_datetime := none, is_first_event := false,
        invite_token_id := none } (by unfold attendanceExists; decide)

/-- `SUM(CASE WHEN checked_in THEN 1 ELSE 0 END)` over a person's
Attendance rows (with `COALESCE(..., 0)` after the LEFT JOIN: a person
with no rows gets 0). -/
def att_checked_count (db : DB) (pid : Nat) : Nat :=
  (db.attendance.filter (fun a => decide (a.person_id = pid) &&
    a.checked_in)).length

/-- `SUM(CASE WHEN rsvp THEN 1 ELSE 0 END)` over a person's Attendance
rows. -/
def att_rsvp_count (db : DB) (pid : Nat) : Nat :=
  (db.attendance.filter (fun a => decide (a.person_id = pid) &&
    a.rsvp)).length

/-- The contact_values of one person's rows of a given contact_type. -/
def contactValuesOf (db : DB) (pid : Nat) (t : String) : List String :=
  (db.contacts.filter (fun c => decide (c.person_id = pid ∧
    c.contact_type = t))).map (fun c => c.contact_value)

/-- SQL `MAX` over a group of string values, NULL for an empty group
(string comparison modelled by Lean's lexicographic order). -/
def sqlMax (l : List String) : Option String :=
  l.foldl (fun acc v =>
    match acc with
    | none => some v
    | some m => some (if m < v then v else m)) none

/-- One MailingList row per People row, as built by the
`INSERT INTO MailingList ... SELECT` of `update_mailing_lists`
(raw_csv_to_sql.py lines 958-1002): the GROUP BY subqueries yield at
most one row per person, so the LEFT JOINs keep exactly one output row
per People row. -/
def mailingRowFor (db : DB) (p : PersonRow) : MailingRow :=
  { first_name := p.first_name, last_name := p.last_name,
    gender := p.gender, class_year := p.class_year,
    is_jewish := match p.is_jewish with
      | some true => some "J"
      | some false => some "N"
      | none => none,
    school := p.school,
    event_attendance_count := att_checked_count db p.id,
    event_rsvp_count := att_rsvp_count db p.id,
    school_email := sqlMax (contactValuesOf db p.id "school email"),
    personal_email := sqlMax (contactValuesOf db p.id "personal email"),
    preferred_email := match sqlMax (contactValuesOf db p.id "school email")
      with
      | some v => some v
      | none => sqlMax (contactValuesOf db p.id "personal email"),
    phone_number := sqlMax (contactValuesOf db p.id "phone") }

/-- One AllMailing row per email contact joined with its person, as
built by the `INSERT INTO AllMailing ... SELECT` (lines 1014-1034). -/
def allMailingRowFor (db : DB) (c : ContactRow) (p : PersonRow) :
    AllMailingRow :=
  { first_name := p.first_name, last_name := p.last_name,
    school := p.school, contact_value := c.contact_value,
    event_count := att_checked_count db c.person_id }

/-- raw_csv_to_sql.py `update_mailing_lists` (lines 948-1049): both
derived tables are truncated and rebuilt from People, Contacts and
Attendance.  The INNER JOIN of AllMailing pairs each email contact
with every People row bearing its person_id. -/
def update_mailing_lists (db : DB) : DB :=
  { db with
    mailingList := db.people.map (fun p => mailingRowFor db p),
    allMailing := (db.contacts.filter (fun c =>
        decide (c.contact_type = "school email" ∨
          c.contact_type = "personal email"))).flatMap
      (fun c => (db.people.filter (fun p =>
          decide (p.id = c.person_id))).map
        (fun p => allMailingRowFor db c p)) }

/-- With distinct People ids and a person present for the given id,
exactly one People row passes the id filter. -/
theorem filter_id_length_one (ps : List PersonRow)
    (h : (ps.map (fun p => p.id)).Nodup) (v : Nat)
    (hex : ∃ p ∈ ps, p.id = v) :
    (ps.filter (fun p => decide (p.id = v))).length = 1 := by
  induction ps with
  | nil =>
    rcases hex with ⟨p, hp, _⟩
    cases hp
  | cons q rest ih =>
    rw [List.map_cons, List.nodup_cons] at h
    by_cases hq : q.id = v
    · rw [List.filter_cons_of_pos (by simpa using hq)]
      have hnil : rest.filter (fun p => decide (p.id = v)) = [] := by
        rw [List.filter_eq_nil_iff]
        intro a ha
        simp only [decide_eq_true_eq]
        intro hav
        exact h.1 (List.mem_map.2 ⟨a, ha, hav.trans hq.symm⟩)
      rw [hnil]
      rfl
    · rw [List.filter_cons_of_neg (by simpa using hq)]
      apply ih h.2
      rcases hex with ⟨p, hp, hpv⟩
      rcases List.mem_cons.1 hp with rfl | hp'
      · exact absurd hpv hq
      · exact ⟨p, hp', hpv⟩

/-- A sum of ones equals a length. -/
theorem sum_map_ones {α : Type} (l : List α) (f : α → Nat)
    (h : ∀ x ∈ l, f x = 1) : (l.map f).sum = l.length := by
  induction l with
  | nil => rfl
  | cons a t ih =>
    rw [List.map_cons, List.sum_cons, h a (List.mem_cons_self a t),
      ih (fun x hx => h x (List.mem_cons_of_mem a hx)), List.length_cons]
    omega

/-- C6: after `update_mailing_lists`, MailingList holds exactly one
row per People row, AllMailing exactly one row per email-typed
Contacts row (given the documented referential integrity: distinct
People ids, every contact's person present), and the result does not
depend on the previous MailingList/AllMailing contents. -/
theorem claim_C6 (db : DB)
    (hids : (db.people.map (fun p => p.id)).Nodup)
    (hfk : ∀ c ∈ db.contacts, ∃ p ∈ db.people, p.id = c.person_id) :
    (update_mailing_lists db).mailingList =
      db.people.map (fun p => mailingRowFor db p) ∧
    (update_mailing_lists db).mailingList.length = db.people.length ∧
    (update_mailing_lists db).allMailing.length =
      (db.contacts.filter (fun c =>
        decide (c.contact_type = "school email" ∨
          c.contact_type = "personal email"))).length ∧
    ∀ (ml : List MailingRow) (am : List AllMailingRow),
      update_mailing_lists { db with mailingList := ml, allMailing := am } =
        update_mailing_lists db := by
  refine ⟨rfl, by simp [update_mailing_lists], ?_, fun ml am => rfl⟩
  unfold update_mailing_lists
  dsimp only
  rw [List.length_flatMap]
  apply sum_map_ones
  intro c hc
  simp only [Function.comp, List.length_map]
  exact filter_id_length_one db.people hids c.person_id
    (hfk c (List.mem_of_mem_filter hc))

/-- C6, witness at a concrete input: a database with one person and
one email contact yields one MailingList row and one AllMailing row. -/
theorem claim_C6_witness :
    ((c3db.people.map (fun p => p.id)).Nodup ∧
     ∀ c ∈ c3db.contacts, ∃ p ∈ c3db.people, p.id = c.person_id) ∧
    (update_mailing_lists c3db).mailingList.length = 1 ∧
    (update_mailing_lists c3db).allMailing.length = 1 := by
  have h := claim_C6 c3db (by decide) (by decide)
  refine ⟨⟨by decide, by decide⟩, ?_, ?_⟩
  · rw [h.2.1]
    rfl
  · rw [h.2.2.1]
    decide

/-- A People row as touched by
refresh/02_migrate_contacts_to_people.py (denormalized contact
columns). -/
structure MPersonRow where
  id : Nat
  first_name : Option String
  last_name : Option String
  school_email : Option String
  personal_email : Option String
  preferred_email : Option String
  phone_number : Option String
deriving DecidableEq, Repr

/-- A Contacts row as read by the migration script. -/
structure MContactRow where
  id : Nat
  person_id : Nat
  contact_type : String
  contact_value : String
deriving DecidableEq, Repr

/-- The database state touched by the migration script. -/
structure MDB where
  people : List MPersonRow
  contacts : List MContactRow
deriving DecidableEq, Repr

/-- The stats dict of `migrate_contacts_to_people`. -/
structure MigrationStats where
  total_contacts : Nat
  school_emails_added : Nat
  personal_emails_added : Nat
  phones_added : Nat
  skipped_no_change : Nat
  errors : Nat
deriving DecidableEq, Repr

/-- `ORDER BY c.person_id, c.contact_type` (ties unspecified in SQL;
the embedding uses a stable insertion sort). -/
def contactLe (a b : MContactRow) : Bool :=
  decide (a.person_id < b.person_id) ||
    (decide (a.person_id = b.person_id) &&
      decide (a.contact_type ≤ b.contact_type))

/-- Insertion step of the sort. -/
def insertSorted (x : MContactRow) : List MContactRow → List MContactRow
  | [] => [x]
  | y :: t => if contactLe x y then x :: y :: t else y :: insertSorted x t

/-- Insertion sort by (person_id, contact_type). -/
def sortContacts : List MContactRow → List MContactRow
  | [] => []
  | x :: t => insertSorted x (sortContacts t)

/-- The snapshot taken by the initial `SELECT ... FROM Contacts c JOIN
People p ON c.person_id = p.id ORDER BY c.person_id, c.contact_type`
(lines 63-79): each contact paired with its person's values at SELECT
time; contacts without a matching person are dropped by the JOIN. -/
def migrationSnapshot (db : MDB) : List (MContactRow × MPersonRow) :=
  (sortContacts db.contacts).flatMap (fun c =>
    (db.people.filter (fun p => decide (p.id = c.person_id))).map
      (fun p => (c, p)))

/-- Set one People column for the given person id. -/
def setSchoolEmail (people : List MPersonRow) (pid : Nat) (v : String) :
    List MPersonRow :=
  people.map (fun p => if p.id = pid then { p with school_email := some v }
    else p)

/-- Set the personal_email column for the given person id. -/
def setPersonalEmail (people : List MPersonRow) (pid : Nat) (v : String) :
    List MPersonRow :=
  people.map (fun p => if p.id = pid then { p with personal_email := some v }
    else p)

/-- Set the phone_number column for the given person id. -/
def setPhoneNumber (people : List MPersonRow) (pid : Nat) (v : String) :
    List MPersonRow :=
  people.map (fun p => if p.id = pid then { p with phone_number := some v }
    else p)

/-- One iteration of the contact loop of `migrate_contacts_to_people`
(lines 85-164).  The comparison values come from the snapshot; the
UPDATEs accumulate on the working People list.  Python truthiness: an
existing value skips the update only when it is non-empty and already
matches. -/
def migrateStep (st : List MPersonRow × MigrationStats)
    (cp : MContactRow × MPersonRow) : List MPersonRow × MigrationStats :=
  let people := st.1
  let stats := st.2
  let c := cp.1
  let snap := cp.2
  if c.contact_type = "school email" then
    let nv := pyLower c.contact_value
    if (match snap.school_email with
        | some e => decide (e ≠ "") && decide (pyLower e = nv)
        | none => false) then
      (people, { stats with skipped_no_change := stats.skipped_no_change + 1 })
    else
      (setSchoolEmail people c.person_id nv,
        { stats with school_emails_added := stats.school_emails_added + 1 })
  else if c.contact_type = "personal email" then
    let nv := pyLower c.contact_value
    if (match snap.personal_email with
        | some e => decide (e ≠ "") && decide (pyLower e = nv)
        | none => false) then
      (people, { stats with skipped_no_change := stats.skipped_no_change + 1 })
    else
      (setPersonalEmail people c.person_id nv,
        { stats with
          personal_emails_added := stats.personal_emails_added + 1 })
  else if c.contact_type = "phone" then
    let nv := cleanPhoneStr c.contact_value
    if (match snap.phone_number.map cleanPhoneStr with
        | some e => decide (e ≠ "") && decide (e = nv)
        | none => false) then
      (people, { stats with skipped_no_change := stats.skipped_no_change + 1 })
    else
      (setPhoneNumber people c.person_id nv,
        { stats with phones_added := stats.phones_added + 1 })
  else
    (people, { stats with errors := stats.errors + 1 })

/-- The final `UPDATE People SET preferred_email = COALESCE(
school_email, personal_email) WHERE ... IS DISTINCT FROM ...`
(lines 169-174). -/
def updatePreferred (people : List MPersonRow) : List MPersonRow :=
  people.map (fun p =>
    if (p.school_email.isSome ∨ p.personal_email.isSome) ∧
        p.preferred_email ≠ (match p.school_email with
          | some v => some v
          | none => p.personal_email) then
      { p with preferred_email := match p.school_email with
          | some v => some v
          | none => p.personal_email }
    else p)

/-- refresh/02_migrate_contacts_to_people.py
`migrate_contacts_to_people` (lines 46-178): fold the contact loop
over the snapshot, then refresh preferred_email.  (The `dry_run`
parameter of the Python function is unused inside it; commit or
rollback happens in `main`.  Progress printing is output-only and
omitted.) -/
def migrate_contacts_to_people (db : MDB) : MDB × MigrationStats :=
  let snapshot := migrationSnapshot db
  let init : MigrationStats :=
    { total_contacts := snapshot.length, school_emails_added := 0,
      personal_emails_added := 0, phones_added := 0,
      skipped_no_change := 0, errors := 0 }
  let r := snapshot.foldl migrateStep (db.people, init)
  ({ db with people := updatePreferred r.1 }, r.2)

/-- Whether the run hits a database error (psycopg2.Error), raised by
the external database engine. -/
inductive DbOutcome where
  | ok
  | dbError
deriving DecidableEq, Repr

/-- A non-autocommit connection: the committed state visible after the
session and the in-transaction working state. -/
structure PgSession where
  committed : MDB
  working : MDB
deriving DecidableEq, Repr

/-- `conn.rollback()`: discard the working transaction. -/
def sessionRollback (s : PgSession) : PgSession :=
  { s with working := s.committed }

/-- `conn.commit()`: publish the working transaction. -/
def sessionCommit (s : PgSession) : PgSession :=
  { s with committed := s.working }

/-- refresh/02_migrate_contacts_to_people.py `main` (lines 195-253):
open a non-autocommit connection, run the migration in the
transaction; on a database error roll back and return 1; otherwise
roll back when `--dry-run` was given and commit when not, returning 0.
The result is the committed database visible after the process exits,
paired with the process exit code (`exit(main())`). -/
def migration_main (dryRun : Bool) (db : MDB) (outcome : DbOutcome) :
    MDB × Nat :=
  let s : PgSession := { committed := db, working := db }
  match outcome with
  | .dbError => ((sessionRollback s).committed, 1)
  | .ok =>
    let s1 : PgSession :=
      { s with working := (migrate_contacts_to_people s.working).1 }
    if dryRun then ((sessionRollback s1).committed, 0)
    else ((sessionCommit s1).committed, 0)

/-- C7: a `--dry-run` invocation leaves the committed database
unchanged whatever the outcome; the exit code is 0 on success and 1
on a database error (in which case the database is also rolled back
unchanged); a successful non-dry run commits the migrated state. -/
theorem claim_C7 (db : MDB) (outcome : DbOutcome) (dryRun : Bool) :
    (migration_main true db outcome).1 = db ∧
    (migration_main dryRun db DbOutcome.ok).2 = 0 ∧
    (migration_main dryRun db DbOutcome.dbError).2 = 1 ∧
    (migration_main dryRun db DbOutcome.dbError).1 = db ∧
    (migration_main false db DbOutcome.ok).1 =
      (migrate_contacts_to_people db).1 := by
  refine ⟨?_, ?_, rfl, rfl, rfl⟩
  · cases outcome with
    | ok => rfl
    | dbError => rfl
  · cases dryRun with
    | true => rfl
    | false => rfl
